import Mathlib

/-!
Shallow embedding of the music-generation engine of
`midi_generator_advanced_GUI.py`.

The GUI layer (tkinter widgets) and the byte-level MIDI encoding (the
`mido` library) are external collaborators; the embedding covers the note
tables, the harmony advisor, the scale builder, the melody synthesizer,
the song assembler and the input validation performed by the
`generate_midi` callback.  Python `int` is modelled as `Int` (arbitrary
precision in both), Python lists as `List`, Python dict/`list.index`
lookups (which raise `KeyError`/`ValueError`) as `Option`, and the
exceptions raised by `generate_midi_file`'s list indexing as
`Except MidiError`.
-/

/-- `NOTE_NAMES = ['C', 'C#', 'D', 'D#', 'E', 'F', 'F#', 'G', 'G#', 'A', 'A#', 'B']`
(written in two definitionally appended halves). -/
def NOTE_NAMES : List String :=
  ["C", "C#", "D", "D#", "E", "F"] ++ ["F#", "G", "G#", "A", "A#", "B"]

/-- First index of `a` in `l`, starting the count at `i`. -/
def list_index_aux [BEq α] (a : α) : List α → Nat → Option Nat
  | [], _ => none
  | b :: l, i => if a == b then some i else list_index_aux a l (i + 1)

/-- Python `list.index` / dict-comprehension lookup: first index of `a` in `l`,
`none` where Python raises `ValueError` / `KeyError`. -/
def list_index [BEq α] (a : α) (l : List α) : Option Nat :=
  list_index_aux a l 0

/-- `BASE_NOTES = {name: i for i, name in enumerate(NOTE_NAMES)}`; dict lookup
`BASE_NOTES[name]`, `none` where Python raises `KeyError`. -/
def BASE_NOTES (name : String) : Option Nat :=
  list_index name NOTE_NAMES

/-- `MODES`: mode name to interval pattern, in source order. -/
def MODES : List (String × List Int) :=
  [("Major (Ionian)", [2, 2, 1, 2, 2, 2, 1]),
   ("Minor (Aeolian)", [2, 1, 2, 2, 1, 2, 2]),
   ("Dorian", [2, 1, 2, 2, 2, 1, 2]),
   ("Phrygian", [1, 2, 2, 2, 1, 2, 2]),
   ("Lydian", [2, 2, 2, 1, 2, 2, 1]),
   ("Mixolydian", [2, 2, 1, 2, 2, 1, 2]),
   ("Locrian", [1, 2, 2, 1, 2, 2, 2])]

/-- `CIRCLE_OF_FIFTHS = [0, 7, 2, 9, 4, 11, 6, 1, 8, 3, 10, 5]` -/
def CIRCLE_OF_FIFTHS : List Nat :=
  [0, 7, 2, 9, 4, 11, 6, 1, 8, 3, 10, 5]

/-- Python `pat in s` substring test on the character list of `s`. -/
def list_infix_check [BEq α] (pat : List α) : List α → Bool
  | [] => pat.isEmpty
  | a :: l => pat.isPrefixOf (a :: l) || list_infix_check pat l

/-- Python substring containment `pat in s` for strings. -/
def strContains (s pat : String) : Bool :=
  list_infix_check pat.data s.data

/-- `get_harmonic_suggestions(current_note_name, mode)`.  The two lookups model
`BASE_NOTES[...]` (KeyError) and `CIRCLE_OF_FIFTHS.index(...)` (ValueError);
the two inner list indexings are total in Python reach (index is `% 12` of a
circle of length 12, values are 0..11), rendered with `getD`. -/
def get_harmonic_suggestions (current_note_name mode : String) : Option (List String) :=
  match BASE_NOTES current_note_name with
  | none => none
  | some current_note_idx =>
    match list_index current_note_idx CIRCLE_OF_FIFTHS with
    | none => none
    | some circle_idx =>
      some ((([-1, 1, -2, 2] : List Int)).map fun offset =>
        let suggestion_idx := (((circle_idx : Int) + offset) % 12).toNat
        let suggestion_note := NOTE_NAMES.getD (CIRCLE_OF_FIFTHS.getD suggestion_idx 0) ("")
        let suggested_mode :=
          if strContains mode ("Major") || strContains mode ("Lydian") ||
              strContains mode ("Mixolydian")
          then ("Major (Ionian)") else ("Minor (Aeolian)")
        suggestion_note ++ (" (") ++ suggested_mode ++ (")"))

/-- The accumulation loop of `generate_scale`: `current += interval; append`. -/
def scale_tail : Int → List Int → List Int
  | _, [] => []
  | current, interval :: rest => (current + interval) :: scale_tail (current + interval) rest

/-- `generate_scale(root_note, mode)`: looks up `MODES[mode]` (KeyError as
`none`), then applies `intervals[:-1]` cumulatively starting from the root. -/
def generate_scale (root_note : Int) (mode : String) : Option (List Int) :=
  match List.lookup mode MODES with
  | none => none
  | some intervals => some (root_note :: scale_tail root_note intervals.dropLast)

/-- One melody event: fields `note`, `duration`, `velocity` (dict keys in the
source). -/
structure NoteEvent where
  note : Int
  duration : Int
  velocity : Int
deriving DecidableEq

/-- `generate_melody(scale, length_in_beats)`: Python `range(n)` is empty for
`n <= 0`, hence `Int.toNat`.  `note = scale[i % len(scale)] + 12 * (i // len(scale))`,
duration 480, velocity 100. -/
def generate_melody (scale : List Int) (length_in_beats : Int) : List NoteEvent :=
  (List.range length_in_beats.toNat).map fun i =>
    ⟨scale.getD (i % scale.length) 0 + 12 * ((i / scale.length : Nat) : Int), 480, 100⟩

/-- Track events appended by `generate_midi_file`: the `set_tempo` meta message
(the bpm-to-microseconds conversion is done by the external `mido` library, so
the event records the bpm) and the two note messages, each with its delta
`time`. -/
inductive MidiEvent
  | setTempo (bpm : Int) (time : Int)
  | noteOn (note : Int) (velocity : Int) (time : Int)
  | noteOff (note : Int) (velocity : Int) (time : Int)
deriving DecidableEq

/-- Errors raised during `generate_midi_file`: Python `IndexError` from list
indexing and `KeyError` from dict lookup. -/
inductive MidiError
  | indexError
  | keyError
deriving DecidableEq

/-- Python `s.split(sep)` for a one-character separator, accumulator of the
current field in reverse. -/
def split_on_char_aux (sep : Char) : List Char → List Char → List String
  | [], acc => [String.mk acc.reverse]
  | c :: rest, acc =>
    if c = sep then String.mk acc.reverse :: split_on_char_aux sep rest []
    else split_on_char_aux sep rest (c :: acc)

/-- Python `structure.split('-')` (single-character separator). -/
def splitOnChar (sep : Char) (s : String) : List String :=
  split_on_char_aux sep s.data []

/-- Python `s.replace(pat, rep)` for a one-character pattern (the source only
replaces the single characters `' '` and `'#'`). -/
def strReplaceChar (c : Char) (rep : String) (s : String) : String :=
  String.mk (s.data.flatMap fun ch => if ch = c then rep.data else [ch])

/-- Python list indexing `l[i]`, `IndexError` as `Except.error`. -/
def getIdx (l : List α) (i : Nat) : Except MidiError α :=
  match l[i]? with
  | some x => Except.ok x
  | none => Except.error MidiError.indexError

/-- The `for i, section in enumerate(sections)` loop body of
`generate_midi_file`, in source order: `section_notes[i]`, `section_modes[i]`,
`BASE_NOTES[root_note_name] + 60`, `section_lengths[i]`, scale, melody, then
the `note_on`/`note_off` pair per melody event. -/
def sections_loop (section_notes section_modes : List String) (section_lengths : List Int) :
    List String → Nat → Except MidiError (List MidiEvent)
  | [], _ => Except.ok []
  | _ :: rest, i =>
    match section_notes[i]? with
    | none => Except.error MidiError.indexError
    | some root_note_name =>
      match section_modes[i]? with
      | none => Except.error MidiError.indexError
      | some mode =>
        match BASE_NOTES root_note_name with
        | none => Except.error MidiError.keyError
        | some base =>
          let root_note : Int := (base : Int) + 60
          match section_lengths[i]? with
          | none => Except.error MidiError.indexError
          | some section_length =>
            match generate_scale root_note mode with
            | none => Except.error MidiError.keyError
            | some scale =>
              let melody := generate_melody scale section_length
              let events := melody.flatMap fun e =>
                [MidiEvent.noteOn e.note e.velocity 0, MidiEvent.noteOff e.note 0 e.duration]
              match sections_loop section_notes section_modes section_lengths rest (i + 1) with
              | Except.error e => Except.error e
              | Except.ok restEvents => Except.ok (events ++ restEvents)

/-- `generate_midi_file(bpm, section_notes, section_modes, section_lengths,
structure)`: tempo meta message first, the per-section loop, then the filename
`f"song_{section_notes[0]}_{section_modes[0]}_{bpm}bpm.mid"` with `" "`
replaced by `"_"` and then `"#"` by `"sharp"`.  The `mid.save(filename)` write
is the external collaborator; the embedding returns the assembled track and
the filename. -/
def generate_midi_file (bpm : Int) (section_notes section_modes : List String)
    (section_lengths : List Int) (structureStr : String) :
    Except MidiError (List MidiEvent × String) :=
  let sections := splitOnChar '-' structureStr
  match sections_loop section_notes section_modes section_lengths sections 0 with
  | Except.error e => Except.error e
  | Except.ok body =>
    match section_notes[0]?, section_modes[0]? with
    | some n0, some m0 =>
      Except.ok (MidiEvent.setTempo bpm 0 :: body,
        strReplaceChar '#' ("sharp") (strReplaceChar ' ' ("_")
          (("song_") ++ n0 ++ ("_") ++ m0 ++ ("_") ++ toString bpm ++ ("bpm.mid"))))
    | _, _ => Except.error MidiError.indexError

/-- BPM validation of `MidiGeneratorApp.generate_midi`:
`if bpm < 20 or bpm > 300: raise ValueError("BPM must be between 20 and 300.")`. -/
def check_bpm (bpm : Int) : Except String Unit :=
  if bpm < 20 ∨ bpm > 300 then Except.error ("BPM must be between 20 and 300.")
  else Except.ok ()

/-- Section-length validation of `MidiGeneratorApp.generate_midi`:
`if length < 1 or length > 32: raise ValueError("Section length must be between 1 and 32 beats.")`. -/
def check_length (length : Int) : Except String Unit :=
  if length < 1 ∨ length > 32 then
    Except.error ("Section length must be between 1 and 32 beats.")
  else Except.ok ()

/-- Root pitch of a recognized note name, `BASE_NOTES[name] + 60`. -/
def noteRootPitch (name : String) : Int :=
  ((BASE_NOTES name).getD 0 : Int) + 60

/-- Modelled from the spec: the filename convention
`"song_{firstSectionNote}_{firstSectionMode}_{bpm}bpm.mid"` with all spaces
replaced by `_` and `#` replaced by `sharp`. -/
def spec_filename (note mode : String) (bpm : Int) : String :=
  strReplaceChar '#' ("sharp") (strReplaceChar ' ' ("_")
    (("song_") ++ note ++ ("_") ++ mode ++ ("_") ++ toString bpm ++ ("bpm.mid")))

/-- `Except.isOk` as a plain boolean on the embedding's result type. -/
def exceptOk : Except MidiError (List MidiEvent × String) → Bool
  | Except.ok _ => true
  | Except.error _ => false

/-- Recognizer for the index-error outcome. -/
def exceptIndexErr : Except MidiError (List MidiEvent × String) → Bool
  | Except.error MidiError.indexError => true
  | _ => false

/-- Boolean check that a list of integers is strictly increasing. -/
def strictly_increasing : List Int → Bool
  | [] => true
  | [_] => true
  | a :: b :: rest => decide (a < b) && strictly_increasing (b :: rest)

/-- The track assembled for bpm 120, structure `Intro-Verse`, sections
(C, Major (Ionian), 4) and (G, Minor (Aeolian), 4): the tempo meta event and
the 16 note messages of the two 4-beat melodies. -/
def demoTrack : List MidiEvent :=
  [MidiEvent.setTempo 120 0,
   MidiEvent.noteOn 60 100 0, MidiEvent.noteOff 60 0 480,
   MidiEvent.noteOn 62 100 0, MidiEvent.noteOff 62 0 480,
   MidiEvent.noteOn 64 100 0, MidiEvent.noteOff 64 0 480,
   MidiEvent.noteOn 65 100 0, MidiEvent.noteOff 65 0 480,
   MidiEvent.noteOn 67 100 0, MidiEvent.noteOff 67 0 480,
   MidiEvent.noteOn 69 100 0, MidiEvent.noteOff 69 0 480,
   MidiEvent.noteOn 70 100 0, MidiEvent.noteOff 70 0 480,
   MidiEvent.noteOn 72 100 0, MidiEvent.noteOff 72 0 480]

/-- Membership in a list makes `list_index_aux` succeed, for any starting
offset. -/
lemma list_index_aux_isSome [BEq α] [LawfulBEq α] (a : α) :
    ∀ (l : List α) (i : Nat), a ∈ l → (list_index_aux a l i).isSome = true := by
  intro l
  induction l with
  | nil => intro i h; cases h
  | cons b t ih =>
    intro i h
    cases hab : (a == b) with
    | true => simp [list_index_aux, hab]
    | false =>
      have ht : a ∈ t := by
        rcases List.mem_cons.mp h with h1 | h2
        · subst h1; simp at hab
        · exact h2
      simpa [list_index_aux, hab] using ih (i + 1) ht

/-- Recognized note names have an entry in `BASE_NOTES`. -/
lemma BASE_NOTES_isSome (name : String) (h : name ∈ NOTE_NAMES) :
    (BASE_NOTES name).isSome = true :=
  list_index_aux_isSome name NOTE_NAMES 0 h

/-- A key occurring among the first components of an association list makes
`List.lookup` succeed. -/
lemma lookup_mode_isSome (m : String) :
    ∀ (l : List (String × List Int)), m ∈ l.map Prod.fst → (List.lookup m l).isSome = true := by
  intro l
  induction l with
  | nil => intro h; simp at h
  | cons p t ih =>
    intro h
    cases hab : (m == p.1) with
    | true => simp [List.lookup, hab]
    | false =>
      rw [List.map_cons] at h
      have ht : m ∈ t.map Prod.fst := by
        rcases List.mem_cons.mp h with h1 | h2
        · subst h1; simp at hab
        · exact h2
      simpa [List.lookup, hab] using ih ht

/-- The note messages emitted for a melody are the per-pitch pairs with the
fixed velocity 100 and duration 480 that `generate_melody` stores in every
event. -/
lemma melody_flatMap_pairs (scale : List Int) (len : Int) :
    ((generate_melody scale len).flatMap fun e =>
        [MidiEvent.noteOn e.note e.velocity 0, MidiEvent.noteOff e.note 0 e.duration]) =
      ((generate_melody scale len).map fun e => e.note).flatMap
        (fun p => [MidiEvent.noteOn p 100 0, MidiEvent.noteOff p 0 480]) := by
  simp only [generate_melody, List.flatMap_map, List.map_map, Function.comp]

/-- Splitting always yields at least one field. -/
lemma split_on_char_aux_length_pos (sep : Char) :
    ∀ (l acc : List Char), 1 ≤ (split_on_char_aux sep l acc).length := by
  intro l
  induction l with
  | nil => intro acc; simp [split_on_char_aux]
  | cons c rest ih =>
    intro acc
    by_cases h : c = sep
    · simp [split_on_char_aux, h]
    · simpa [split_on_char_aux, h] using ih (c :: acc)

/-- Splitting a string always yields at least one field, as in Python. -/
lemma splitOnChar_length_pos (sep : Char) (s : String) :
    1 ≤ (splitOnChar sep s).length :=
  split_on_char_aux_length_pos sep s.data []

/-- When every section index is in range for all three arrays and every note
and mode entry is recognized, the section loop succeeds and its events are a
flat list of note-on/note-off pairs, velocity 100 and delta times 0/480. -/
lemma sections_loop_ok (notes modes : List String) (lens : List Int)
    (hv1 : ∀ nm ∈ notes, (BASE_NOTES nm).isSome = true)
    (hv2 : ∀ m ∈ modes, (List.lookup m MODES).isSome = true) :
    ∀ (sections : List String) (i : Nat),
      i + sections.length ≤ notes.length →
      i + sections.length ≤ modes.length →
      i + sections.length ≤ lens.length →
      ∃ ps : List Int, sections_loop notes modes lens sections i =
        Except.ok (ps.flatMap fun p =>
          [MidiEvent.noteOn p 100 0, MidiEvent.noteOff p 0 480]) := by
  intro sections
  induction sections with
  | nil => intro i _ _ _; exact ⟨[], rfl⟩
  | cons s rest ih =>
    intro i h1 h2 h3
    simp only [List.length_cons] at h1 h2 h3
    have hi1 : i < notes.length := by omega
    have hi2 : i < modes.length := by omega
    have hi3 : i < lens.length := by omega
    have e1 : notes[i]? = some notes[i] := List.getElem?_eq_getElem hi1
    have e2 : modes[i]? = some modes[i] := List.getElem?_eq_getElem hi2
    have e4 : lens[i]? = some lens[i] := List.getElem?_eq_getElem hi3
    obtain ⟨base, e3⟩ := Option.isSome_iff_exists.mp (hv1 notes[i] (List.getElem_mem hi1))
    obtain ⟨iv, e5⟩ := Option.isSome_iff_exists.mp (hv2 modes[i] (List.getElem_mem hi2))
    have e5' : generate_scale ((base : Int) + 60) modes[i] =
        some (((base : Int) + 60) :: scale_tail ((base : Int) + 60) iv.dropLast) := by
      simp [generate_scale, e5]
    obtain ⟨ps', hrest⟩ := ih (i + 1) (by omega) (by omega) (by omega)
    refine ⟨(generate_melody (((base : Int) + 60) :: scale_tail ((base : Int) + 60) iv.dropLast)
      lens[i]).map (fun e => e.note) ++ ps', ?_⟩
    simp only [sections_loop, e1, e2, e3, e4, e5', hrest]
    rw [List.flatMap_append, melody_flatMap_pairs]

/-- When any of the three per-section arrays is exhausted before the label
list (with recognized entries), the section loop stops at the first missing
index, in source evaluation order (notes, then modes, then lengths), with an
index error. -/
lemma sections_loop_any_short (notes modes : List String) (lens : List Int)
    (hv1 : ∀ nm ∈ notes, (BASE_NOTES nm).isSome = true)
    (hv2 : ∀ m ∈ modes, (List.lookup m MODES).isSome = true) :
    ∀ (sections : List String) (i : Nat),
      i ≤ notes.length → i ≤ modes.length → i ≤ lens.length →
      (notes.length < i + sections.length ∨ modes.length < i + sections.length ∨
        lens.length < i + sections.length) →
      sections_loop notes modes lens sections i = Except.error MidiError.indexError := by
  intro sections
  induction sections with
  | nil => intro i h1 h2 h3 hd; simp only [List.length_nil] at hd; omega
  | cons s rest ih =>
    intro i h1 h2 h3 hd
    simp only [List.length_cons] at hd
    by_cases hn : i < notes.length
    · by_cases hm : i < modes.length
      · by_cases hl : i < lens.length
        · have e1 : notes[i]? = some notes[i] := List.getElem?_eq_getElem hn
          have e2 : modes[i]? = some modes[i] := List.getElem?_eq_getElem hm
          have e4 : lens[i]? = some lens[i] := List.getElem?_eq_getElem hl
          obtain ⟨base, e3⟩ := Option.isSome_iff_exists.mp (hv1 notes[i] (List.getElem_mem hn))
          obtain ⟨iv, e5⟩ := Option.isSome_iff_exists.mp (hv2 modes[i] (List.getElem_mem hm))
          have e5' : generate_scale ((base : Int) + 60) modes[i] =
              some (((base : Int) + 60) :: scale_tail ((base : Int) + 60) iv.dropLast) := by
            simp [generate_scale, e5]
          have hrest := ih (i + 1) (by omega) (by omega) (by omega) (by omega)
          simp only [sections_loop, e1, e2, e3, e4, e5', hrest]
        · have e1 : notes[i]? = some notes[i] := List.getElem?_eq_getElem hn
          have e2 : modes[i]? = some modes[i] := List.getElem?_eq_getElem hm
          obtain ⟨base, e3⟩ := Option.isSome_iff_exists.mp (hv1 notes[i] (List.getElem_mem hn))
          have e4 : lens[i]? = none := List.getElem?_eq_none (by omega)
          simp only [sections_loop, e1, e2, e3, e4]
      · have e1 : notes[i]? = some notes[i] := List.getElem?_eq_getElem hn
        have e2 : modes[i]? = none := List.getElem?_eq_none (by omega)
        simp only [sections_loop, e1, e2]
    · have e1 : notes[i]? = none := List.getElem?_eq_none (by omega)
      simp only [sections_loop, e1]

/-- When all three per-section arrays cover the label list and all entries are
recognized, `generate_midi_file` succeeds with the tempo event followed by the
flat list of note pairs. -/
lemma generate_midi_file_ok_shape (bpm : Int) (notes modes : List String) (lens : List Int)
    (structureStr : String)
    (hv1 : ∀ nm ∈ notes, (BASE_NOTES nm).isSome = true)
    (hv2 : ∀ m ∈ modes, (List.lookup m MODES).isSome = true)
    (h1 : (splitOnChar '-' structureStr).length ≤ notes.length)
    (h2 : (splitOnChar '-' structureStr).length ≤ modes.length)
    (h3 : (splitOnChar '-' structureStr).length ≤ lens.length) :
    ∃ (ps : List Int) (fn : String), generate_midi_file bpm notes modes lens structureStr =
      Except.ok (MidiEvent.setTempo bpm 0 :: ps.flatMap
        (fun p => [MidiEvent.noteOn p 100 0, MidiEvent.noteOff p 0 480]), fn) := by
  obtain ⟨ps, hloop⟩ := sections_loop_ok notes modes lens hv1 hv2
    (splitOnChar '-' structureStr) 0 (by omega) (by omega) (by omega)
  have hpos := splitOnChar_length_pos '-' structureStr
  have hn0 : notes[0]? = some notes[0] := List.getElem?_eq_getElem (by omega)
  have hm0 : modes[0]? = some modes[0] := List.getElem?_eq_getElem (by omega)
  have hb1 : 0 < notes.length := by omega
  have hb2 : 0 < modes.length := by omega
  refine ⟨ps, strReplaceChar '#' ("sharp") (strReplaceChar ' ' ("_")
    (("song_") ++ notes[0] ++ ("_") ++ modes[0] ++ ("_") ++ toString bpm ++ ("bpm.mid"))), ?_⟩
  simp only [generate_midi_file, hloop, hn0, hm0]

/-- Claim C1: for every root pitch obtained from one of the 12 recognized note
names (`BASE_NOTES[name] + 60`) and every one of the 7 recognized modes,
`generate_scale` returns exactly 7 strictly increasing integers, the last
minus the first is below 12, the first equals the root pitch, and each
subsequent element is the previous plus the corresponding interval step (the
mode's 7th step is never applied). -/
theorem generate_scale_diatonic :
    ∀ name ∈ NOTE_NAMES, ∀ p ∈ MODES,
      (generate_scale (noteRootPitch name) p.1).isSome = true ∧
      ∀ scale ∈ (generate_scale (noteRootPitch name) p.1).toList,
        scale.length = 7 ∧
        strictly_increasing scale = true ∧
        scale.getD 6 0 - scale.getD 0 0 < 12 ∧
        scale.getD 0 0 = noteRootPitch name ∧
        ∀ k ∈ List.range 6, scale.getD (k + 1) 0 = scale.getD k 0 + p.2.getD k 0 := by
  decide

/-- Witness for C1 at root note C and the Major (Ionian) mode. -/
theorem generate_scale_diatonic_witness :
    (("C") ∈ NOTE_NAMES ∧ (("Major (Ionian)", ([2, 2, 1, 2, 2, 2, 1] : List Int))) ∈ MODES) ∧
    ((generate_scale (noteRootPitch ("C")) ("Major (Ionian)")).isSome = true ∧
      ∀ scale ∈ (generate_scale (noteRootPitch ("C")) ("Major (Ionian)")).toList,
        scale.length = 7 ∧
        strictly_increasing scale = true ∧
        scale.getD 6 0 - scale.getD 0 0 < 12 ∧
        scale.getD 0 0 = noteRootPitch ("C") ∧
        ∀ k ∈ List.range 6, scale.getD (k + 1) 0 =
          scale.getD k 0 + ([2, 2, 1, 2, 2, 2, 1] : List Int).getD k 0) :=
  ⟨by decide, generate_scale_diatonic ("C") (by decide)
    (("Major (Ionian)"), [2, 2, 1, 2, 2, 2, 1]) (by decide)⟩

/-- Claim C2: for every 7-element scale and every positive length `n`,
`generate_melody` returns exactly `n` events, and the event at beat index `i`
has pitch `scale[i mod 7] + 12 * (i div 7)`, duration 480 and velocity 100. -/
theorem generate_melody_indexed (scale : List Int) (n : Int) (i : Nat)
    (h7 : scale.length = 7) (hn : 1 ≤ n) (hi : i < n.toNat) :
    ((generate_melody scale n).length : Int) = n ∧
    (generate_melody scale n)[i]? =
      some ⟨scale.getD (i % 7) 0 + 12 * ((i / 7 : Nat) : Int), 480, 100⟩ := by
  constructor
  · simp only [generate_melody, List.length_map, List.length_range]
    omega
  · simp [generate_melody, List.getElem?_map, List.getElem?_range hi, h7]

/-- Witness for C2 at the C major scale, length 8, beat index 7: the 8th event
has pitch `scale[0] + 12 = 72`. -/
theorem generate_melody_indexed_witness :
    (([60, 62, 64, 65, 67, 69, 71] : List Int).length = 7 ∧ (1 : Int) ≤ 8 ∧
      (7 : Nat) < (8 : Int).toNat) ∧
    (((generate_melody [60, 62, 64, 65, 67, 69, 71] 8).length : Int) = 8 ∧
      (generate_melody [60, 62, 64, 65, 67, 69, 71] 8)[7]? =
        some ⟨([60, 62, 64, 65, 67, 69, 71] : List Int).getD (7 % 7) 0 +
          12 * (((7 / 7 : Nat)) : Int), 480, 100⟩) :=
  ⟨⟨by decide, by decide, by decide⟩,
    generate_melody_indexed [60, 62, 64, 65, 67, 69, 71] 8 7 (by decide) (by decide) (by decide)⟩

/-- Counterexample to claim C3 as stated: for note C and mode Major (Ionian)
the third suggestion of `get_harmonic_suggestions` (offset -2 on the circle of
fifths) is A#, not D#. -/
theorem harmonic_suggestions_c_major_third :
    get_harmonic_suggestions ("C") ("Major (Ionian)") =
      some [("F (Major (Ionian))"), ("G (Major (Ionian))"),
            ("A# (Major (Ionian))"), ("D (Major (Ionian))")] ∧
    ((get_harmonic_suggestions ("C") ("Major (Ionian)")).getD []).getD 2 ("") ≠
      ("D# (Major (Ionian))") :=
  ⟨rfl, by decide⟩

/-- Claim C3 as amended: `get_harmonic_suggestions("C", "Major (Ionian)")`
returns exactly 4 suggestions in the offset order -1, +1, -2, +2, with note
names F, G, A#, D, each tagged with the major-family mode Major (Ionian). -/
theorem harmonic_suggestions_c_major_list :
    get_harmonic_suggestions ("C") ("Major (Ionian)") =
      some [("F (Major (Ionian))"), ("G (Major (Ionian))"),
            ("A# (Major (Ionian))"), ("D (Major (Ionian))")] ∧
    ((get_harmonic_suggestions ("C") ("Major (Ionian)")).getD []).length = 4 :=
  ⟨rfl, rfl⟩

/-- Claim C4: for valid input (recognized names and modes, array lengths equal
to the number of labels, bpm 20..300, lengths 1..32), `generate_midi_file`
returns the tempo event at time 0 followed by a flat list of note-on/note-off
pairs, each with delta time 0 on the on message and 480 on the off message. -/
theorem assemble_event_list_shape (bpm : Int) (notes modes : List String) (lens : List Int)
    (structureStr : String)
    (hbpm1 : 20 ≤ bpm) (hbpm2 : bpm ≤ 300)
    (hvn : ∀ nm ∈ notes, nm ∈ NOTE_NAMES)
    (hvm : ∀ m ∈ modes, m ∈ MODES.map Prod.fst)
    (hvl : ∀ l ∈ lens, 1 ≤ l ∧ l ≤ 32)
    (h1 : notes.length = (splitOnChar '-' structureStr).length)
    (h2 : modes.length = (splitOnChar '-' structureStr).length)
    (h3 : lens.length = (splitOnChar '-' structureStr).length) :
    ∃ (ps : List Int) (fn : String), generate_midi_file bpm notes modes lens structureStr =
      Except.ok (MidiEvent.setTempo bpm 0 :: ps.flatMap
        (fun p => [MidiEvent.noteOn p 100 0, MidiEvent.noteOff p 0 480]), fn) :=
  generate_midi_file_ok_shape bpm notes modes lens structureStr
    (fun nm h => BASE_NOTES_isSome nm (hvn nm h))
    (fun m h => lookup_mode_isSome m MODES (hvm m h))
    (by omega) (by omega) (by omega)

/-- Witness for C4 at the end-to-end example, with the event count: 1 tempo
event plus 16 note messages. -/
theorem assemble_event_list_shape_witness :
    (∃ (ps : List Int) (fn : String),
      generate_midi_file 120 [("C"), ("G")] [("Major (Ionian)"), ("Minor (Aeolian)")] [4, 4]
          ("Intro-Verse") =
        Except.ok (MidiEvent.setTempo 120 0 :: ps.flatMap
          (fun p => [MidiEvent.noteOn p 100 0, MidiEvent.noteOff p 0 480]), fn)) ∧
    (generate_midi_file 120 [("C"), ("G")] [("Major (Ionian)"), ("Minor (Aeolian)")] [4, 4]
        ("Intro-Verse")).toOption.map (fun r => r.1.length) = some 17 :=
  ⟨assemble_event_list_shape 120 _ _ _ _ (by decide) (by decide) (by decide) (by decide)
    (by decide) (by decide) (by decide) (by decide), rfl⟩

/-- Claim C5: whenever `generate_midi_file` returns, its filename is
`"song_{firstNote}_{firstMode}_{bpm}bpm.mid"` with spaces replaced by
underscores and the sharp sign replaced by "sharp". -/
theorem assemble_filename_convention (bpm : Int) (notes modes : List String) (lens : List Int)
    (structureStr : String) (n0 m0 : String) (ev : List MidiEvent) (fn : String)
    (h0 : notes[0]? = some n0) (h1 : modes[0]? = some m0)
    (h : generate_midi_file bpm notes modes lens structureStr = Except.ok (ev, fn)) :
    fn = spec_filename n0 m0 bpm := by
  simp only [generate_midi_file] at h
  cases hloop : sections_loop notes modes lens (splitOnChar '-' structureStr) 0 with
  | error e => rw [hloop] at h; simp at h
  | ok body =>
    rw [hloop, h0, h1] at h
    simp only [Except.ok.injEq, Prod.mk.injEq] at h
    exact h.2.symm

/-- Witness for C5 at the end-to-end example: the filename is
`song_C_Major_(Ionian)_120bpm.mid`. -/
theorem assemble_filename_convention_witness :
    generate_midi_file 120 [("C"), ("G")] [("Major (Ionian)"), ("Minor (Aeolian)")] [4, 4]
        ("Intro-Verse") =
      Except.ok (demoTrack, ("song_C_Major_(Ionian)_120bpm.mid")) ∧
    ("song_C_Major_(Ionian)_120bpm.mid") = spec_filename ("C") ("Major (Ionian)") 120 :=
  ⟨rfl, assemble_filename_convention 120 [("C"), ("G")]
    [("Major (Ionian)"), ("Minor (Aeolian)")] [4, 4] ("Intro-Verse")
    ("C") ("Major (Ionian)") demoTrack ("song_C_Major_(Ionian)_120bpm.mid") rfl rfl rfl⟩

/-- Claim C6: the bpm check of `generate_midi` fails exactly when bpm is below
20 or above 300, and the per-section length check fails exactly when the
length is below 1 or above 32, each with its `ValueError` message. -/
theorem validation_boundaries :
    ∀ bpm len : Int,
      (check_bpm bpm = Except.error ("BPM must be between 20 and 300.") ↔
        bpm < 20 ∨ 300 < bpm) ∧
      (check_bpm bpm = Except.ok () ↔ 20 ≤ bpm ∧ bpm ≤ 300) ∧
      (check_length len = Except.error ("Section length must be between 1 and 32 beats.") ↔
        len < 1 ∨ 32 < len) ∧
      (check_length len = Except.ok () ↔ 1 ≤ len ∧ len ≤ 32) := by
  intro bpm len
  refine ⟨?_, ?_, ?_, ?_⟩ <;> simp only [check_bpm, check_length] <;> split <;>
    simp_all <;> omega

/-- Counterexample to claim C7 as stated: `generate_melody` does not fail for
lengths below 1, it returns the empty event list. -/
theorem generate_melody_zero_is_result :
    generate_melody [60, 62, 64, 65, 67, 69, 71] 0 = [] ∧
    generate_melody [60, 62, 64, 65, 67, 69, 71] (-3) = [] :=
  ⟨rfl, rfl⟩

/-- Claim C7 as amended: for every length below 1 the synthesizer itself
returns an empty event list rather than an error; the 1..32 length validation
is performed by the `generate_midi` caller, whose check rejects such lengths. -/
theorem generate_melody_nonpositive (scale : List Int) (n : Int) (h : n < 1) :
    generate_melody scale n = [] ∧
    check_length n = Except.error ("Section length must be between 1 and 32 beats.") := by
  constructor
  · simp only [generate_melody, List.map_eq_nil_iff, List.range_eq_nil]
    omega
  · have hc : n < 1 ∨ n > 32 := Or.inl h
    simp [check_length, hc]

/-- Witness for the amended C7 at length 0. -/
theorem generate_melody_nonpositive_witness :
    ((0 : Int) < 1) ∧ (generate_melody [60, 62, 64, 65, 67, 69, 71] 0 = [] ∧
      check_length 0 = Except.error ("Section length must be between 1 and 32 beats.")) :=
  ⟨by decide, generate_melody_nonpositive [60, 62, 64, 65, 67, 69, 71] 0 (by decide)⟩

/-- Counterexample to claim C8 as stated: with 2 notes, 2 modes and 2 lengths
against the single-label structure `Intro`, the arrays disagree with the label
count, yet `generate_midi_file` succeeds instead of failing. -/
theorem assemble_mismatch_succeeds :
    ([("C"), ("G")] : List String).length ≠ (splitOnChar '-' ("Intro")).length ∧
    exceptOk (generate_midi_file 120 [("C"), ("G")] [("Major (Ionian)"), ("Major (Ionian)")]
      [4, 4] ("Intro")) = true :=
  ⟨by decide, rfl⟩

/-- Claim C8 as amended: `generate_midi_file` performs no section-count check.
With recognized note and mode entries, the call either succeeds or fails with
an index error, and it succeeds exactly when every one of the three
per-section arrays is at least as long as the label list (extra entries are
silently ignored, so disagreeing longer arrays still succeed; whichever array
is shorter makes the call hit an index error, never a dedicated section-count
error). -/
theorem assemble_no_section_count_check (bpm : Int) (notes modes : List String) (lens : List Int)
    (structureStr : String)
    (hv1 : ∀ nm ∈ notes, nm ∈ NOTE_NAMES)
    (hv2 : ∀ m ∈ modes, m ∈ MODES.map Prod.fst) :
    (exceptOk (generate_midi_file bpm notes modes lens structureStr) ||
      exceptIndexErr (generate_midi_file bpm notes modes lens structureStr)) = true ∧
    exceptOk (generate_midi_file bpm notes modes lens structureStr) =
      decide ((splitOnChar '-' structureStr).length ≤ notes.length ∧
        (splitOnChar '-' structureStr).length ≤ modes.length ∧
        (splitOnChar '-' structureStr).length ≤ lens.length) := by
  have hv1' : ∀ nm ∈ notes, (BASE_NOTES nm).isSome = true :=
    fun nm h => BASE_NOTES_isSome nm (hv1 nm h)
  have hv2' : ∀ m ∈ modes, (List.lookup m MODES).isSome = true :=
    fun m h => lookup_mode_isSome m MODES (hv2 m h)
  by_cases h : (splitOnChar '-' structureStr).length ≤ notes.length ∧
      (splitOnChar '-' structureStr).length ≤ modes.length ∧
      (splitOnChar '-' structureStr).length ≤ lens.length
  · obtain ⟨ps, fn, hok⟩ :=
      generate_midi_file_ok_shape bpm notes modes lens structureStr hv1' hv2' h.1 h.2.1 h.2.2
    rw [hok]
    exact ⟨rfl, (decide_eq_true h).symm⟩
  · have hshort := sections_loop_any_short notes modes lens hv1' hv2'
      (splitOnChar '-' structureStr) 0 (by omega) (by omega) (by omega) (by omega)
    have hgen : generate_midi_file bpm notes modes lens structureStr =
        Except.error MidiError.indexError := by
      simp only [generate_midi_file, hshort]
    rw [hgen]
    exact ⟨rfl, (decide_eq_false h).symm⟩

/-- Witness for the amended C8 at two-entry arrays against the one-label
structure `Intro`: the arrays disagree with the label count, yet the call
succeeds. -/
theorem assemble_no_section_count_check_witness :
    ((∀ nm ∈ ([("C"), ("G")] : List String), nm ∈ NOTE_NAMES) ∧
      (∀ m ∈ ([("Major (Ionian)"), ("Major (Ionian)")] : List String), m ∈ MODES.map Prod.fst)) ∧
    ((exceptOk (generate_midi_file 120 [("C"), ("G")] [("Major (Ionian)"), ("Major (Ionian)")]
        [4, 4] ("Intro")) ||
      exceptIndexErr (generate_midi_file 120 [("C"), ("G")] [("Major (Ionian)"), ("Major (Ionian)")]
        [4, 4] ("Intro"))) = true ∧
    exceptOk (generate_midi_file 120 [("C"), ("G")] [("Major (Ionian)"), ("Major (Ionian)")]
        [4, 4] ("Intro")) =
      decide ((splitOnChar '-' ("Intro")).length ≤ ([("C"), ("G")] : List String).length ∧
        (splitOnChar '-' ("Intro")).length ≤
          ([("Major (Ionian)"), ("Major (Ionian)")] : List String).length ∧
        (splitOnChar '-' ("Intro")).length ≤ ([4, 4] : List Int).length)) :=
  ⟨by decide, assemble_no_section_count_check 120 [("C"), ("G")]
    [("Major (Ionian)"), ("Major (Ionian)")] [4, 4] ("Intro")
    (by decide) (by decide)⟩

/-- Claim C9: with randomized note selection disabled, `generate_midi_file` is
a pure function of its inputs, so two successful calls with identical inputs
yield identical event lists and identical filenames. -/
theorem assemble_deterministic (bpm : Int) (notes modes : List String) (lens : List Int)
    (structureStr : String) (ev1 ev2 : List MidiEvent) (fn1 fn2 : String)
    (hA : generate_midi_file bpm notes modes lens structureStr = Except.ok (ev1, fn1))
    (hB : generate_midi_file bpm notes modes lens structureStr = Except.ok (ev2, fn2)) :
    ev1 = ev2 ∧ fn1 = fn2 := by
  rw [hA] at hB
  injection hB with h
  exact ⟨congrArg Prod.fst h, congrArg Prod.snd h⟩

/-- Witness for C9 at the end-to-end example. -/
theorem assemble_deterministic_witness :
    generate_midi_file 120 [("C"), ("G")] [("Major (Ionian)"), ("Minor (Aeolian)")] [4, 4]
        ("Intro-Verse") =
      Except.ok (demoTrack, ("song_C_Major_(Ionian)_120bpm.mid")) ∧
    (demoTrack = demoTrack ∧
      ("song_C_Major_(Ionian)_120bpm.mid" : String) = ("song_C_Major_(Ionian)_120bpm.mid")) :=
  ⟨rfl, assemble_deterministic 120 [("C"), ("G")] [("Major (Ionian)"), ("Minor (Aeolian)")]
    [4, 4] ("Intro-Verse") demoTrack demoTrack
    ("song_C_Major_(Ionian)_120bpm.mid") ("song_C_Major_(Ionian)_120bpm.mid") rfl rfl⟩

/-- Base-note indices of recognized names are below 12. -/
lemma BASE_NOTES_getD_lt : ∀ name ∈ NOTE_NAMES, (BASE_NOTES name).getD 0 ∈ List.range 12 := by
  decide

/-- For every base pitch class, recognized mode and beat index below 32, the
melody pitch formula stays within 0..127. -/
lemma pitch_core : ∀ base ∈ List.range 12, ∀ p ∈ MODES,
    ∀ scale ∈ (generate_scale ((base : Int) + 60) p.1).toList, ∀ i ∈ List.range 32,
      0 ≤ scale.getD (i % scale.length) 0 + 12 * ((i / scale.length : Nat) : Int) ∧
      scale.getD (i % scale.length) 0 + 12 * ((i / scale.length : Nat) : Int) ≤ 127 := by
  decide

/-- Claim C10: for every section with a recognized root note (root pitch
`BASE_NOTES[name] + 60`), a recognized mode and a length of 1..32 beats, every
pitch in the generated melody lies in the MIDI range 0..127. -/
theorem melody_pitches_in_midi_range (name : String) (p : String × List Int) (scale : List Int)
    (len : Int) (e : NoteEvent)
    (hname : name ∈ NOTE_NAMES) (hp : p ∈ MODES)
    (hs : generate_scale (noteRootPitch name) p.1 = some scale)
    (hl1 : 1 ≤ len) (hl2 : len ≤ 32)
    (he : e ∈ generate_melody scale len) :
    0 ≤ e.note ∧ e.note ≤ 127 := by
  simp only [generate_melody] at he
  obtain ⟨i, hi, hfe⟩ := List.mem_map.mp he
  have hi32 : i ∈ List.range 32 := by
    rw [List.mem_range] at hi ⊢
    omega
  have hb := BASE_NOTES_getD_lt name hname
  have hs' : generate_scale ((((BASE_NOTES name).getD 0 : Nat) : Int) + 60) p.1 = some scale := hs
  have hcore := pitch_core ((BASE_NOTES name).getD 0) hb p hp scale (by simp [hs']) i hi32
  rw [← hfe]
  exact hcore

/-- Witness for C10 at root C, Major (Ionian), length 32: the highest event
pitch 113 is within range. -/
theorem melody_pitches_in_midi_range_witness :
    ((("C") ∈ NOTE_NAMES ∧ (("Major (Ionian)", ([2, 2, 1, 2, 2, 2, 1] : List Int))) ∈ MODES) ∧
      generate_scale (noteRootPitch ("C")) ("Major (Ionian)") =
        some [60, 62, 64, 65, 67, 69, 71] ∧
      (1 : Int) ≤ 32 ∧ (32 : Int) ≤ 32 ∧
      (⟨113, 480, 100⟩ : NoteEvent) ∈ generate_melody [60, 62, 64, 65, 67, 69, 71] 32) ∧
    (0 ≤ (⟨113, 480, 100⟩ : NoteEvent).note ∧ (⟨113, 480, 100⟩ : NoteEvent).note ≤ 127) :=
  ⟨⟨⟨by decide, by decide⟩, rfl, by decide, by decide, by decide⟩,
    melody_pitches_in_midi_range ("C") (("Major (Ionian)"), [2, 2, 1, 2, 2, 2, 1])
      [60, 62, 64, 65, 67, 69, 71] 32 ⟨113, 480, 100⟩
      (by decide) (by decide) rfl (by decide) (by decide) (by decide)⟩
